import Mathlib

set_option autoImplicit false

/-!
Verification of the request-parameter marshaling subsystem and the data-class
(de)serialization layer of the repository (a Telegram bot API client library).

The development shallowly embeds:
* the JSON value universe used on the wire,
* `telegram.request._requestparameter.RequestParameter` and its classmethod
  `from_input` (this module is exercised by `src/tests/test_requestparameter.py`
  but its body is not under `src/`, so it is modelled from the spec, §4.3,
  constrained by the expectations of the in-repo tests),
* `InputFile` (spec §4.2) and the composite `InputMedia` view consumed by the
  encoder (spec §3, §4.3 step 3),
* the timestamp conversion (spec §4.3 step 6),
* the `InputMedia*` constructors of `src/telegram/files/inputmedia.py`,
* the legacy inline-result classes of `src/telegram/inline/` and the modern
  `_BaseThumbedMedium.de_json` of `src/telegram/_files/_basethumbedmedium.py`.
-/

/-! ## Definitions -/

/-- JSON-compatible values: the wire universe produced by the encoder and by
`to_dict`. Objects are modelled as association lists in insertion order. -/
inductive JsonValue where
  | null : JsonValue
  | bool (b : Bool) : JsonValue
  | int (n : Int) : JsonValue
  | str (s : String) : JsonValue
  | arr (xs : List JsonValue) : JsonValue
  | obj (fields : List (String × JsonValue)) : JsonValue

/-- First-match lookup in an association list, as Python `dict.get` on the
dicts we model (keys are unique in every dict the code builds). -/
def getKey (data : List (String × JsonValue)) (k : String) : Option JsonValue :=
  match data with
  | [] => none
  | (k', v) :: rest => if k' = k then some v else getKey rest k

/-- `data.pop(k, None)`: remove every binding of `k`. -/
def popKey (data : List (String × JsonValue)) (k : String) :
    List (String × JsonValue) :=
  data.filter (fun kv => kv.1 ≠ k)

/-- Extract a JSON string. -/
def JsonValue.asStr? : JsonValue → Option String
  | .str s => some s
  | _ => none

/-- Extract a JSON integer. -/
def JsonValue.asInt? : JsonValue → Option Int
  | .int n => some n
  | _ => none

/-- Does the JSON value (recursively) contain the string `s`?  Used to state
that an encoded value holds a file's synthetic reference. -/
def JsonValue.containsStr (s : String) : JsonValue → Bool
  | .str t => t = s
  | .arr [] => false
  | .arr (x :: xs) => JsonValue.containsStr s x || JsonValue.containsStr s (.arr xs)
  | .obj [] => false
  | .obj ((_, v) :: kvs) => JsonValue.containsStr s v || JsonValue.containsStr s (.obj kvs)
  | _ => false

/-- `telegram._files.inputfile.InputFile` (spec §4.2): a pending upload.
`attach_name` is the process-unique synthetic name assigned when the file was
constructed with `attach=True` (`'attached' + uuid4().hex`); `none` models a
plain upload sent under the parameter's own field name.  The binary payload is
modelled as an opaque string. -/
structure InputFile where
  content : String
  filename : String
  mimetype : String
  attach_name : Option String
deriving DecidableEq, Repr

/-- `InputFile.attach_uri`: the synthetic reference string. -/
def attachUri (name : String) : String := "attach://" ++ name

/-- `InputFile.field_tuple`: `(filename, binary content, MIME type)`. -/
def InputFile.field_tuple (f : InputFile) : String × String × String :=
  (f.filename, f.content, f.mimetype)

/-- The encoder's view of a composite media object (spec §3, §4.4): a `type`
tag, a primary `media` slot holding either a pending upload (`Sum.inl`) or a
remote file-id / URL string (`Sum.inr`), an optional `thumb` slot of the same
shape, and the remaining serialized metadata fields of `to_dict` (caption,
duration, ..., already JSON-compatible, in their serialization order). -/
structure InputMedia where
  media_type : String
  media : InputFile ⊕ String
  thumb : Option (InputFile ⊕ String)
  extra : List (String × JsonValue)

/-- Naive civil timestamp (assumed UTC, spec §4.3 step 6); `micro` is the
sub-second part in microseconds.  Covers the epoch-based range `year ≥ 1970`
exercised by the code. -/
structure DateTime where
  year : Nat
  month : Nat
  day : Nat
  hour : Nat
  minute : Nat
  second : Nat
  micro : Nat
deriving DecidableEq, Repr

/-- Gregorian leap-year test. -/
def isLeap (y : Nat) : Bool := (y % 4 == 0 && y % 100 != 0) || y % 400 == 0

/-- Days contributed by the full months preceding `month` in year `y`. -/
def daysBeforeMonth (y month : Nat) : Nat :=
  (([31, if isLeap y then 29 else 28, 31, 30, 31, 30, 31, 31, 30, 31, 30, 31]).take
    (month - 1)).sum

/-- Days from 1970-01-01 to the given civil date. -/
def daysSinceEpoch (y month day : Nat) : Nat :=
  ((List.range (y - 1970)).map (fun i => if isLeap (1970 + i) then 366 else 365)).sum
    + daysBeforeMonth y month + (day - 1)

/-- Modelled from the spec: `telegram._utils.datetime.to_timestamp` (not under
`src/`) — "timestamps → integer epoch seconds (UTC, truncated to whole seconds
— sub-second precision is dropped)" (spec §4.3 step 6).  The `micro` field is
deliberately ignored. -/
def to_timestamp (dt : DateTime) : Int :=
  ((daysSinceEpoch dt.year dt.month dt.day) * 86400
    + dt.hour * 3600 + dt.minute * 60 + dt.second : Nat)

/-- A non-sequence input value, as classified by the encoder's helper
(spec §4.3, §6): `None`, a plain JSON-compatible primitive/mapping, a pending
or referenced file, a composite media object, a typed object (whose `to_dict`
yields the given JSON mapping), an enum (with its underlying primitive wire
value), or a timestamp. -/
inductive Atom where
  | anone : Atom
  | ajson (j : JsonValue) : Atom
  | afile (f : InputFile) : Atom
  | amedia (m : InputMedia) : Atom
  | aobj (fields : List (String × JsonValue)) : Atom
  | aenum (j : JsonValue) : Atom
  | adt (dt : DateTime) : Atom

/-- An input value handed to `RequestParameter.from_input`: a single value or
an ordered sequence of values (spec §4.3 step 4, §6 "Inbound"). -/
inductive Val where
  | atom (a : Atom) : Val
  | vseq (xs : List Atom) : Val

/-- Encoding of one nested file field of a composite media object
(spec §4.3 step 3, and `tests/test_requestparameter.py` lines 124-158):
a reference string passes through; an upload with a synthetic name is replaced
by its `attach://` reference and attached; an upload without a synthetic name
is removed from the mapping but still attached. -/
def encodeFileField (key : String) (fld : InputFile ⊕ String) :
    List (String × JsonValue) × List InputFile :=
  match fld with
  | .inr s => ([(key, .str s)], [])
  | .inl f =>
    match f.attach_name with
    | some n => ([(key, .str (attachUri n))], [f])
    | none => ([], [f])

/-- Modelled from the spec: the composite-media branch of
`RequestParameter._value_and_input_files_from_input` together with
`InputMedia.to_dict` (neither under `src/`): serialize the object, rewrite its
`media` and `thumb` fields, and collect the attachments in `media`-then-`thumb`
order (spec §4.3 step 3). -/
def encodeMedia (m : InputMedia) : List (String × JsonValue) × List InputFile :=
  let me := encodeFileField "media" m.media
  let th := match m.thumb with
    | none => ([], [])
    | some t => encodeFileField "thumb" t
  (("type", JsonValue.str m.media_type) :: me.1 ++ th.1 ++ m.extra, me.2 ++ th.2)

/-- Modelled from the spec:
`RequestParameter._value_and_input_files_from_input` (not under `src/`) —
classifies one non-sequence value and returns the JSON-dumpable value (`none`
models Python `None`) together with the files to upload (spec §4.3 steps 1-3,
5-7, constrained by `tests/test_requestparameter.py`). -/
def encodeAtom : Atom → Option JsonValue × List InputFile
  | .anone => (none, [])
  | .ajson j => (some j, [])
  | .afile f =>
    match f.attach_name with
    | some n => (some (.str (attachUri n)), [f])
    | none => (none, [f])
  | .amedia m =>
    let (fields, files) := encodeMedia m
    (some (.obj fields), files)
  | .aobj fields => (some (.obj fields), [])
  | .aenum j => (some j, [])
  | .adt dt => (some (.int (to_timestamp dt)), [])

/-- `telegram.request._requestparameter.RequestParameter`: the (name, value,
attachments) triple (spec §3).  `value = none` models Python `None`;
`input_files = none` models the absent attachment list. -/
structure RequestParameter where
  name : String
  value : Option JsonValue
  input_files : Option (List InputFile)

/-- Modelled from the spec: `RequestParameter.from_input` (not under `src/`) —
the single normalization point (spec §4.3).  A sequence encodes each element by
the same classification rules; element values that come back as Python `None`
are not appended to the list of values (test line 114: encoding
`[inputfile_1, inputfile_2]` with plain-upload `inputfile_2` yields the
one-element value `[inputfile_1.attach_uri]`), while the discovered attachments
are concatenated in element order without de-duplication.  The attachment list
is `None` when no files were discovered. -/
def RequestParameter.from_input (key : String) (v : Val) : RequestParameter :=
  match v with
  | .atom a =>
    let (pv, fs) := encodeAtom a
    ⟨key, pv, if fs.isEmpty then none else some fs⟩
  | .vseq xs =>
    let pairs := xs.map encodeAtom
    let values := (pairs.map Prod.fst).reduceOption
    let files := (pairs.map Prod.snd).flatten
    ⟨key, some (.arr values), if files.isEmpty then none else some files⟩

/-- `RequestParameter.multipart_data`: maps each attached file's wire key (the
synthetic name if present, else the parameter name) to its `field_tuple`;
`None` when there are no attachments (spec §4.3 step 8, and
`tests/test_requestparameter.py` lines 63-73). -/
def RequestParameter.multipart_data (p : RequestParameter) :
    Option (List (String × (String × String × String))) :=
  match p.input_files with
  | none => none
  | some [] => none
  | some fs => some (fs.map (fun f => (f.attach_name.getD p.name, f.field_tuple)))

/-- The upload-mode file with a synthetic name used throughout the tests
(`InputFile('data1', filename='inputfile_1', attach=True)`); the generated
uuid-based name is abbreviated `a1`. -/
def inputfile_1 : InputFile := ⟨"data1", "inputfile_1", "text/plain", some "a1"⟩

/-- `InputFile('data2', filename='inputfile_2')`: upload mode without a
synthetic name. -/
def inputfile_2 : InputFile := ⟨"data2", "inputfile_2", "text/plain", none⟩

/-- Number of occurrences of the file `f` in one media slot. -/
def fieldCount (f : InputFile) : InputFile ⊕ String → Nat
  | .inl g => if g = f then 1 else 0
  | .inr _ => 0

/-- Number of occurrences of the file `f` in a composite media object. -/
def InputMedia.countFile (f : InputFile) (m : InputMedia) : Nat :=
  fieldCount f m.media + (match m.thumb with | some t => fieldCount f t | none => 0)

/-- Number of occurrences of the file `f` in a non-sequence input value. -/
def Atom.countFile (f : InputFile) : Atom → Nat
  | .afile g => if g = f then 1 else 0
  | .amedia m => m.countFile f
  | _ => 0

/-- Number of occurrences of the file `f` in an input value. -/
def Val.countFile (f : InputFile) : Val → Nat
  | .atom a => a.countFile f
  | .vseq xs => (xs.map (Atom.countFile f)).sum

/-- A second attach-mode upload used as a thumbnail in witnesses. -/
def inputthumb : InputFile := ⟨"tdata", "thumbf", "image/jpeg", some "a2"⟩

/-- The upload-mode primary file of the composite `mediaB` in the spec's
sequence example (§8). -/
def mediaB_file : InputFile := ⟨"mb", "mediaB", "video/mp4", some "b1"⟩

/-- `telegram.PhotoSize` (declared via imports; modelled from the spec §4.1
data-class pattern): identity fields plus dimensions. -/
structure PhotoSize where
  file_id : String
  file_unique_id : String
  width : Int
  height : Int
  file_size : Option Int
deriving DecidableEq, Repr

/-- `telegram.files.video.Video` (`src/telegram/files/video.py`): the remote
video object whose positional metadata the `InputMediaVideo` constructor
inherits. -/
structure Video where
  file_id : String
  file_unique_id : String
  width : Int
  height : Int
  duration : Int
  thumb : Option PhotoSize
  mime_type : Option String
  file_size : Option Int
  file_name : Option String
deriving DecidableEq, Repr

/-- `telegram.Animation` (declared via imports; modelled from the spec §4.4:
an existing remote media object of the animation kind with positional
metadata). -/
structure Animation where
  file_id : String
  file_unique_id : String
  width : Int
  height : Int
  duration : Int
deriving DecidableEq, Repr

/-- `telegram.Audio` (declared via imports; modelled from the spec §4.4 and
the class docstring: an existing remote audio with duration, performer and
title). -/
structure Audio where
  file_id : String
  file_unique_id : String
  duration : Int
  performer : Option String
  title : Option String
deriving DecidableEq, Repr

/-- A freshly-supplied file argument (spec §4.2): either a remote file-id /
URL string, or binary content to upload. -/
inductive FileInput where
  | str (s : String) : FileInput
  | bytes (content : String) : FileInput
deriving DecidableEq, Repr

/-- Modelled from the spec: `telegram.utils.files.parse_file_input` (not under
`src/`) with `attach=True` — a string stays the wire value (reference mode),
binary content becomes an upload-mode `InputFile` carrying a fresh synthetic
name (the uuid generation is an external effect, so the fresh name is taken as
an argument). -/
def parse_file_input (attachName : String) (filename : Option String) :
    FileInput → InputFile ⊕ String
  | .str s => .inr s
  | .bytes c => .inl ⟨c, filename.getD "file", "application/octet-stream", some attachName⟩

/-- Modelled from the spec: `_ThumbFiMixin.__init__` (not under `src/`) —
stores the thumbnail run through `parse_file_input` with `attach=True` when
given. -/
def thumbField (freshThumb : String) : Option FileInput → Option (InputFile ⊕ String)
  | none => none
  | some fi => some (parse_file_input freshThumb none fi)

/-- The attribute record built by `InputMediaAnimation.__init__`
(`parse_mode` and `caption_entities` are pass-through stored values not
touched by any claim and are omitted).  The `media` slot is an `Option`
because the Python attribute slot can in principle hold `None`. -/
structure InputMediaAnimationR where
  type_ : String
  media : Option (InputFile ⊕ String)
  caption : Option String
  width : Option Int
  height : Option Int
  duration : Option Int
  thumb : Option (InputFile ⊕ String)
deriving DecidableEq, Repr

/-- The attribute record built by `InputMediaVideo.__init__`. -/
structure InputMediaVideoR where
  type_ : String
  media : Option (InputFile ⊕ String)
  caption : Option String
  width : Option Int
  height : Option Int
  duration : Option Int
  supports_streaming : Option Bool
  thumb : Option (InputFile ⊕ String)
deriving DecidableEq, Repr

/-- The attribute record built by `InputMediaAudio.__init__`. -/
structure InputMediaAudioR where
  type_ : String
  media : Option (InputFile ⊕ String)
  caption : Option String
  duration : Option Int
  performer : Option String
  title : Option String
  thumb : Option (InputFile ⊕ String)
deriving DecidableEq, Repr

/-- `InputMediaAnimation.__init__` (`src/telegram/files/inputmedia.py`
lines 162-185): given an existing `Animation`, width/height/duration fall back
to the remote object's metadata (`media.width if width is None else width`)
and the media slot becomes the remote `file_id`; otherwise the fresh file is
parsed with `attach=True`. -/
def InputMediaAnimation.make (media : Animation ⊕ FileInput) (thumb : Option FileInput)
    (caption : Option String) (width height duration : Option Int)
    (filename : Option String) (freshMedia freshThumb : String) :
    InputMediaAnimationR :=
  match media with
  | .inl a =>
    { type_ := "animation"
      media := some (.inr a.file_id)
      caption := caption
      width := match width with | none => some a.width | some w => some w
      height := match height with | none => some a.height | some h => some h
      duration := match duration with | none => some a.duration | some d => some d
      thumb := thumbField freshThumb thumb }
  | .inr fi =>
    { type_ := "animation"
      media := some (parse_file_input freshMedia filename fi)
      caption := caption
      width := width
      height := height
      duration := duration
      thumb := thumbField freshThumb thumb }

/-- `InputMediaVideo.__init__` (`src/telegram/files/inputmedia.py`
lines 302-327): metadata inheritance is written `width if width is not None
else media.width`; `supports_streaming` is normalized via `False if
supports_streaming is None else supports_streaming` (line 327). -/
def InputMediaVideo.make (media : Video ⊕ FileInput) (caption : Option String)
    (width height duration : Option Int) (supports_streaming : Option Bool)
    (thumb : Option FileInput) (filename : Option String)
    (freshMedia freshThumb : String) : InputMediaVideoR :=
  match media with
  | .inl v =>
    { type_ := "video"
      media := some (.inr v.file_id)
      caption := caption
      width := match width with | some w => some w | none => some v.width
      height := match height with | some h => some h | none => some v.height
      duration := match duration with | some d => some d | none => some v.duration
      supports_streaming := match supports_streaming with
        | none => some false
        | some b => some b
      thumb := thumbField freshThumb thumb }
  | .inr fi =>
    { type_ := "video"
      media := some (parse_file_input freshMedia filename fi)
      caption := caption
      width := width
      height := height
      duration := duration
      supports_streaming := match supports_streaming with
        | none => some false
        | some b => some b
      thumb := thumbField freshThumb thumb }

/-- `InputMediaAudio.__init__` (`src/telegram/files/inputmedia.py`
lines 391-417): duration/performer/title fall back to the remote `Audio`'s
metadata; line 407 then assigns `media = media.title` — the media slot
receives the remote audio's TITLE (`None` when the audio has no title), not
its `file_id`. -/
def InputMediaAudio.make (media : Audio ⊕ FileInput) (thumb : Option FileInput)
    (caption : Option String) (duration : Option Int)
    (performer title : Option String) (filename : Option String)
    (freshMedia freshThumb : String) : InputMediaAudioR :=
  match media with
  | .inl a =>
    { type_ := "audio"
      media := match a.title with | some t => some (.inr t) | none => none
      caption := caption
      duration := match duration with | none => some a.duration | some d => some d
      performer := match performer with | none => a.performer | some p => some p
      title := match title with | none => a.title | some t => some t
      thumb := thumbField freshThumb thumb }
  | .inr fi =>
    { type_ := "audio"
      media := some (parse_file_input freshMedia filename fi)
      caption := caption
      duration := duration
      performer := performer
      title := title
      thumb := thumbField freshThumb thumb }

/-- The remote audio used to exhibit the `media = media.title` slip. -/
def audio_song : Audio := ⟨"audio_file_id", "unique_id", 30, none, some "song_title"⟩

/-- `telegram.InlineKeyboardMarkup` (declared via imports; modelled from the
spec §4.1: a nested typed object recursing via its own `to_dict`/`de_json`).
Buttons are abstracted to their text labels. -/
structure InlineKeyboardMarkup where
  inline_keyboard : List (List String)
deriving DecidableEq, Repr

/-- `InlineKeyboardMarkup.to_dict`. -/
def InlineKeyboardMarkup.to_dict (rm : InlineKeyboardMarkup) : JsonValue :=
  .obj [("inline_keyboard",
    .arr (rm.inline_keyboard.map (fun row => .arr (row.map JsonValue.str))))]

/-- Decode a list of string cells. -/
def decodeCells : List JsonValue → Option (List String)
  | [] => some []
  | c :: cs =>
    match c.asStr? with
    | some s => (decodeCells cs).map (s :: ·)
    | none => none

/-- Decode one keyboard row. -/
def decodeRow : JsonValue → Option (List String)
  | .arr cells => decodeCells cells
  | _ => none

/-- Decode a list of keyboard rows. -/
def decodeRows : List JsonValue → Option (List (List String))
  | [] => some []
  | r :: rs =>
    match decodeRow r with
    | some row => (decodeRows rs).map (row :: ·)
    | none => none

/-- `InlineKeyboardMarkup.de_json`: `None` passes through, a mapping is
parsed. -/
def InlineKeyboardMarkup.de_json : Option JsonValue → Option InlineKeyboardMarkup
  | some (.obj kvs) =>
    (match getKey kvs "inline_keyboard" with
      | some (.arr rows) => (decodeRows rows).map InlineKeyboardMarkup.mk
      | _ => none)
  | _ => none

/-- `telegram.InputMessageContent` (declared via imports; modelled from the
spec §4.1), abstracted to its text payload. -/
structure InputMessageContent where
  message_text : String
deriving DecidableEq, Repr

/-- `InputMessageContent.to_dict`. -/
def InputMessageContent.to_dict (c : InputMessageContent) : JsonValue :=
  .obj [("message_text", .str c.message_text)]

/-- `InputMessageContent.de_json`. -/
def InputMessageContent.de_json : Option JsonValue → Option InputMessageContent
  | some (.obj kvs) =>
    (match getKey kvs "message_text" with
      | some (.str t) => some ⟨t⟩
      | _ => none)
  | _ => none

/-- Python truthiness applied to an optional string argument: `if caption:`
stores the attribute only when the string is non-empty. -/
def truthyStr : Option String → Option String
  | some s => if s = "" then none else some s
  | none => none

/-- Optional string entry of a serialized mapping (absent when unset). -/
def optStrField (k : String) : Option String → List (String × JsonValue)
  | some s => [(k, .str s)]
  | none => []

/-- Optional nested-object entry of a serialized mapping. -/
def optJsonField (k : String) : Option JsonValue → List (String × JsonValue)
  | some j => [(k, j)]
  | none => []

/-- `telegram.inline.inlinequeryresultcachedvoice.InlineQueryResultCachedVoice`
(`src`, lines 53-72): attribute record; an unset optional attribute is
modelled as `none`. -/
structure InlineQueryResultCachedVoice where
  type_ : String
  id : String
  voice_file_id : String
  title : String
  caption : Option String
  reply_markup : Option InlineKeyboardMarkup
  input_message_content : Option InputMessageContent
deriving DecidableEq, Repr

/-- `InlineQueryResultCachedVoice.__init__` (src lines 53-72): required
fields stored as-is; `caption` stored only when truthy (markup/content objects
are always truthy when present). -/
def InlineQueryResultCachedVoice.make (id voice_file_id title : String)
    (caption : Option String) (reply_markup : Option InlineKeyboardMarkup)
    (input_message_content : Option InputMessageContent) :
    InlineQueryResultCachedVoice :=
  ⟨"voice", id, voice_file_id, title, truthyStr caption, reply_markup,
    input_message_content⟩

/-- Modelled from the spec §4.1: `TelegramObject.to_dict` (not under `src/`)
specialized to this class — declared attributes to JSON-compatible values,
unset optionals omitted, nested objects recursing via their own `to_dict`. -/
def InlineQueryResultCachedVoice.to_dict (x : InlineQueryResultCachedVoice) :
    List (String × JsonValue) :=
  [("type", .str x.type_), ("id", .str x.id),
      ("voice_file_id", .str x.voice_file_id), ("title", .str x.title)]
    ++ optStrField "caption" x.caption
    ++ optJsonField "reply_markup" (x.reply_markup.map InlineKeyboardMarkup.to_dict)
    ++ optJsonField "input_message_content"
        (x.input_message_content.map InputMessageContent.to_dict)

/-- `InlineQueryResultCachedVoice.de_json` (src lines 74-82): the base
`de_json` passes the mapping through (modelled from the spec §4.1), the
`reply_markup` / `input_message_content` entries are replaced by their parsed
objects, and the constructor is applied to the mapping as keyword arguments;
keys not matching a declared parameter land in the ignored `**kwargs`. -/
def InlineQueryResultCachedVoice.de_json (data : List (String × JsonValue)) :
    Option InlineQueryResultCachedVoice := do
  let rm := InlineKeyboardMarkup.de_json (getKey data "reply_markup")
  let imc := InputMessageContent.de_json (getKey data "input_message_content")
  let i ← (getKey data "id").bind JsonValue.asStr?
  let vfi ← (getKey data "voice_file_id").bind JsonValue.asStr?
  let ti ← (getKey data "title").bind JsonValue.asStr?
  let caption := (getKey data "caption").bind JsonValue.asStr?
  some (InlineQueryResultCachedVoice.make i vfi ti caption rm imc)

/-- `InlineQueryResultCachedDocument` (`src`, lines 55-88): attribute
record. -/
structure InlineQueryResultCachedDocument where
  type_ : String
  id : String
  title : String
  document_file_id : String
  description : Option String
  caption : Option String
  reply_markup : Option InlineKeyboardMarkup
  input_message_content : Option InputMessageContent
deriving DecidableEq, Repr

/-- `InlineQueryResultCachedDocument.__init__` (src lines 55-77): required
fields stored as-is; `description` and `caption` stored only when truthy. -/
def InlineQueryResultCachedDocument.make (id title document_file_id : String)
    (description caption : Option String)
    (reply_markup : Option InlineKeyboardMarkup)
    (input_message_content : Option InputMessageContent) :
    InlineQueryResultCachedDocument :=
  ⟨"document", id, title, document_file_id, truthyStr description,
    truthyStr caption, reply_markup, input_message_content⟩

/-- Modelled from the spec §4.1: `to_dict` specialized to
`InlineQueryResultCachedDocument`. -/
def InlineQueryResultCachedDocument.to_dict (x : InlineQueryResultCachedDocument) :
    List (String × JsonValue) :=
  [("type", .str x.type_), ("id", .str x.id), ("title", .str x.title),
      ("document_file_id", .str x.document_file_id)]
    ++ optStrField "description" x.description
    ++ optStrField "caption" x.caption
    ++ optJsonField "reply_markup" (x.reply_markup.map InlineKeyboardMarkup.to_dict)
    ++ optJsonField "input_message_content"
        (x.input_message_content.map InputMessageContent.to_dict)

/-- `InlineQueryResultCachedDocument.de_json` (src lines 79-88), mirroring
`InlineQueryResultCachedVoice.de_json`. -/
def InlineQueryResultCachedDocument.de_json (data : List (String × JsonValue)) :
    Option InlineQueryResultCachedDocument := do
  let rm := InlineKeyboardMarkup.de_json (getKey data "reply_markup")
  let imc := InputMessageContent.de_json (getKey data "input_message_content")
  let i ← (getKey data "id").bind JsonValue.asStr?
  let ti ← (getKey data "title").bind JsonValue.asStr?
  let dfi ← (getKey data "document_file_id").bind JsonValue.asStr?
  let description := (getKey data "description").bind JsonValue.asStr?
  let caption := (getKey data "caption").bind JsonValue.asStr?
  some (InlineQueryResultCachedDocument.make i ti dfi description caption rm imc)

/-- `PhotoSize.de_json` (modelled from the spec §4.1). -/
def PhotoSize.de_json : Option JsonValue → Option PhotoSize
  | some (.obj kvs) => do
    let fid ← (getKey kvs "file_id").bind JsonValue.asStr?
    let fuid ← (getKey kvs "file_unique_id").bind JsonValue.asStr?
    let w ← (getKey kvs "width").bind JsonValue.asInt?
    let h ← (getKey kvs "height").bind JsonValue.asInt?
    some ⟨fid, fuid, w, h, (getKey kvs "file_size").bind JsonValue.asInt?⟩
  | _ => none

/-- The attribute record of `telegram._files._basethumbedmedium._BaseThumbedMedium`
(`src`): identity fields, optional size, parsed thumbnail, and the `api_kwargs`
extensibility bag. -/
structure BaseThumbedMedium where
  file_id : String
  file_unique_id : String
  file_size : Option Int
  thumbnail : Option PhotoSize
  api_kwargs : List (String × JsonValue)

/-- The declared constructor parameters of `_BaseThumbedMedium`, as consumed
by the keyword-routing of the base `_de_json`. -/
def thumbedKnownKeys : List String :=
  ["file_id", "file_unique_id", "file_size", "thumbnail"]

/-- `_BaseThumbedMedium.de_json` (src lines 111-131): empty/absent data gives
`None`; the `thumbnail` entry is parsed; a deprecated `thumb` entry is popped
into `api_kwargs`; the base `_de_json` (not under `src/`, modelled from the
spec §4.1/§7: "unknown keys ... routed to an extensibility bag") fills the
declared parameters and routes every remaining key into `api_kwargs`. -/
def BaseThumbedMedium.de_json (data : Option (List (String × JsonValue))) :
    Option BaseThumbedMedium :=
  match data with
  | none => none
  | some d =>
    if d.isEmpty then none
    else
      let thumbnail := PhotoSize.de_json (getKey d "thumbnail")
      let api0 := match getKey d "thumb" with
        | some v => [("thumb", v)]
        | none => []
      let d2 := popKey d "thumb"
      match (getKey d2 "file_id").bind JsonValue.asStr?,
          (getKey d2 "file_unique_id").bind JsonValue.asStr? with
      | some fid, some fuid =>
        some ⟨fid, fuid, (getKey d2 "file_size").bind JsonValue.asInt?, thumbnail,
          (d2.filter (fun kv => !(thumbedKnownKeys.contains kv.1))) ++ api0⟩
      | _, _ => none

/-! ## Theorems -/

/-- Test line 83: a datetime with a 0.1-second fraction encodes to the integer
1573431976. -/
theorem modelCheck_timestamp :
    RequestParameter.from_input "key" (.atom (.adt ⟨2019, 11, 11, 0, 26, 16, 100000⟩))
      = ⟨"key", some (.int 1573431976), none⟩ := rfl

/-- Test lines 105-107: an attach-mode file encodes to its reference. -/
theorem modelCheck_inputfile_attach :
    RequestParameter.from_input "key" (.atom (.afile inputfile_1))
      = ⟨"key", some (.str "attach://a1"), some [inputfile_1]⟩ := rfl

/-- Test lines 109-111: a plain upload encodes to value `None`. -/
theorem modelCheck_inputfile_plain :
    RequestParameter.from_input "key" (.atom (.afile inputfile_2))
      = ⟨"key", none, some [inputfile_2]⟩ := rfl

/-- Test lines 113-115: the sequence `[inputfile_1, inputfile_2]` yields the
one-element value `[inputfile_1.attach_uri]` and both files attached. -/
theorem modelCheck_inputfile_seq :
    RequestParameter.from_input "key" (.vseq [.afile inputfile_1, .afile inputfile_2])
      = ⟨"key", some (.arr [.str "attach://a1"]), some [inputfile_1, inputfile_2]⟩ := rfl

/-- Test lines 147-158: both nested files lacking a synthetic name are dropped
from the mapping but still attached. -/
theorem modelCheck_media_without_attach :
    RequestParameter.from_input "key"
        (.atom (.amedia ⟨"video", .inl ⟨"vid", "telegram.png", "image/png", none⟩,
          some (.inl ⟨"th", "telegram.png", "image/png", none⟩), []⟩))
      = ⟨"key", some (.obj [("type", .str "video")]),
          some [⟨"vid", "telegram.png", "image/png", none⟩,
                ⟨"th", "telegram.png", "image/png", none⟩]⟩ := rfl

/-- Test lines 63-73: multipart data keyed by the synthetic name when present,
else by the parameter name. -/
theorem modelCheck_multipart :
    (RequestParameter.mk "name" (some (.str "value")) (some [inputfile_1, inputfile_2])).multipart_data
      = some [("a1", ("inputfile_1", "data1", "text/plain")),
              ("name", ("inputfile_2", "data2", "text/plain"))] := rfl

theorem count_encodeFileField (key : String) (f : InputFile) (fld : InputFile ⊕ String) :
    ((encodeFileField key fld).2).count f = fieldCount f fld := by
  rcases fld with g | s
  · rcases h : g.attach_name with _ | n <;>
      simp [encodeFileField, fieldCount, h, List.count_cons, List.count_nil, beq_iff_eq]
  · simp [encodeFileField, fieldCount]

theorem count_encodeAtom (a : Atom) (f : InputFile) :
    ((encodeAtom a).2).count f = a.countFile f := by
  cases a with
  | afile g =>
    rcases h : g.attach_name with _ | n <;>
      simp [encodeAtom, Atom.countFile, h, List.count_cons, beq_iff_eq]
  | amedia m =>
    simp only [encodeAtom, encodeMedia, Atom.countFile, InputMedia.countFile]
    rcases ht : m.thumb with _ | t <;>
      simp [List.count_append, count_encodeFileField, ht]
  | _ => simp [encodeAtom, Atom.countFile]

theorem count_seq_files (xs : List Atom) (f : InputFile) :
    (((xs.map encodeAtom).map Prod.snd).flatten).count f
      = (xs.map (Atom.countFile f)).sum := by
  induction xs with
  | nil => simp
  | cons a xs ih =>
    rw [List.map_map] at ih
    simp [List.count_append, count_encodeAtom, ih]

theorem containsStr_obj_of_mem (s : String) (kvs : List (String × JsonValue))
    (k : String) (j : JsonValue) (hm : (k, j) ∈ kvs) (hc : j.containsStr s = true) :
    (JsonValue.obj kvs).containsStr s = true := by
  induction kvs with
  | nil => cases hm
  | cons kv rest ih =>
    rcases kv with ⟨k', j'⟩
    rcases List.mem_cons.mp hm with h | h
    · cases h
      simp [JsonValue.containsStr, hc]
    · simp [JsonValue.containsStr, ih h]

theorem containsStr_arr_of_mem (s : String) (xs : List JsonValue)
    (j : JsonValue) (hm : j ∈ xs) (hc : j.containsStr s = true) :
    (JsonValue.arr xs).containsStr s = true := by
  induction xs with
  | nil => cases hm
  | cons x rest ih =>
    rcases List.mem_cons.mp hm with h | h
    · cases h
      simp [JsonValue.containsStr, hc]
    · simp [JsonValue.containsStr, ih h]

theorem value_contains_atom (a : Atom) (f : InputFile) (n : String)
    (hn : f.attach_name = some n) (hc : 1 ≤ a.countFile f) :
    ∃ j, (encodeAtom a).1 = some j ∧ j.containsStr (attachUri n) = true := by
  cases a with
  | afile g =>
    have hg : g = f := by
      by_contra hne
      simp [Atom.countFile, hne] at hc
    subst hg
    exact ⟨.str (attachUri n), by simp [encodeAtom, hn], by simp [JsonValue.containsStr]⟩
  | amedia m =>
    refine ⟨.obj (encodeMedia m).1, by simp [encodeAtom], ?_⟩
    have hsplit : 1 ≤ fieldCount f m.media ∨
        1 ≤ (match m.thumb with | some t => fieldCount f t | none => 0) := by
      simp only [Atom.countFile, InputMedia.countFile] at hc
      omega
    rcases hsplit with hmed | hth
    · rcases hm : m.media with g | s
      · have hg : g = f := by
          by_contra hne
          simp [hm, fieldCount, hne] at hmed
        subst hg
        have hmem : ("media", JsonValue.str (attachUri n)) ∈ (encodeMedia m).1 := by
          simp [encodeMedia, hm, encodeFileField, hn]
        exact containsStr_obj_of_mem _ _ _ _ hmem (by simp [JsonValue.containsStr])
      · simp [hm, fieldCount] at hmed
    · rcases ht : m.thumb with _ | fld
      · simp [ht] at hth
      · rcases fld with g | s
        · have hg : g = f := by
            by_contra hne
            simp [ht, fieldCount, hne] at hth
          subst hg
          have hmem : ("thumb", JsonValue.str (attachUri n)) ∈ (encodeMedia m).1 := by
            simp [encodeMedia, ht, encodeFileField, hn]
          exact containsStr_obj_of_mem _ _ _ _ hmem (by simp [JsonValue.containsStr])
        · simp [ht, fieldCount] at hth
  | anone => simp [Atom.countFile] at hc
  | ajson j => simp [Atom.countFile] at hc
  | aobj fields => simp [Atom.countFile] at hc
  | aenum j => simp [Atom.countFile] at hc
  | adt dt => simp [Atom.countFile] at hc

theorem from_input_atom_eq (key : String) (a : Atom) :
    RequestParameter.from_input key (.atom a)
      = ⟨key, (encodeAtom a).1,
          if (encodeAtom a).2.isEmpty then none else some (encodeAtom a).2⟩ := by
  simp only [RequestParameter.from_input]

theorem from_input_seq_eq (key : String) (xs : List Atom) :
    RequestParameter.from_input key (.vseq xs)
      = ⟨key, some (.arr (((xs.map encodeAtom).map Prod.fst).reduceOption)),
          if ((xs.map encodeAtom).map Prod.snd).flatten.isEmpty then none
          else some ((xs.map encodeAtom).map Prod.snd).flatten⟩ := rfl

theorem exists_one_le_of_one_le_sum (g : Atom → Nat) (xs : List Atom)
    (h : 1 ≤ (xs.map g).sum) : ∃ a ∈ xs, 1 ≤ g a := by
  induction xs with
  | nil => simp at h
  | cons a xs ih =>
    by_cases ha : 1 ≤ g a
    · exact ⟨a, List.mem_cons_self a xs, ha⟩
    · have hz : g a = 0 := by omega
      simp only [List.map_cons, List.sum_cons, hz, Nat.zero_add] at h
      rcases ih h with ⟨b, hb, hgb⟩
      exact ⟨b, List.mem_cons_of_mem _ hb, hgb⟩

/-- C1: for every parameter produced by `RequestParameter.from_input`, if the
input value carries (exactly once, per the single-use convention of spec §3) an
attachable file in upload mode with its synthetic reference, then that file
appears exactly once in the parameter's attachment list `input_files`, and the
parameter's value holds the file's synthetic reference string
`attach://<name>` instead of the binary content. -/
theorem C1_upload_attachment_invariant (key : String) (v : Val) (f : InputFile)
    (n : String) (hn : f.attach_name = some n) (hone : v.countFile f = 1) :
    (((RequestParameter.from_input key v).input_files).getD []).count f = 1 ∧
    ∃ j, (RequestParameter.from_input key v).value = some j ∧
      j.containsStr (attachUri n) = true := by
  cases v with
  | atom a =>
    have hone' : a.countFile f = 1 := hone
    have hcnt : ((encodeAtom a).2).count f = 1 := by
      rw [count_encodeAtom]; exact hone'
    have hne : ¬ (encodeAtom a).2.isEmpty = true := by
      intro he
      rw [List.isEmpty_iff] at he
      rw [he] at hcnt
      simp at hcnt
    rw [from_input_atom_eq]
    refine ⟨by rw [if_neg hne]; simpa using hcnt, ?_⟩
    simpa using value_contains_atom a f n hn (by omega)
  | vseq xs =>
    have hone' : (xs.map (Atom.countFile f)).sum = 1 := hone
    have hcnt : (((xs.map encodeAtom).map Prod.snd).flatten).count f = 1 := by
      rw [count_seq_files]; exact hone'
    have hne : ¬ ((xs.map encodeAtom).map Prod.snd).flatten.isEmpty = true := by
      intro he
      rw [List.isEmpty_iff] at he
      rw [he] at hcnt
      simp at hcnt
    rw [from_input_seq_eq]
    refine ⟨by rw [if_neg hne]; simpa using hcnt, ?_⟩
    rcases exists_one_le_of_one_le_sum (Atom.countFile f) xs (by omega) with ⟨a, ha, hga⟩
    rcases value_contains_atom a f n hn hga with ⟨j, hj, hc⟩
    refine ⟨.arr (((xs.map encodeAtom).map Prod.fst).reduceOption), rfl, ?_⟩
    apply containsStr_arr_of_mem _ _ j _ hc
    rw [List.reduceOption_mem_iff, ← hj]
    exact List.mem_map_of_mem Prod.fst (List.mem_map_of_mem encodeAtom ha)

/-- Witness for C1 at a concrete input: the attach-mode file `inputfile_1`
inside the mixed sequence of test lines 113-115. -/
theorem C1_upload_attachment_invariant_witness :
    inputfile_1.attach_name = some "a1" ∧
    (Val.vseq [.afile inputfile_1, .afile inputfile_2]).countFile inputfile_1 = 1 ∧
    ((((RequestParameter.from_input "key"
        (.vseq [.afile inputfile_1, .afile inputfile_2])).input_files).getD []).count
          inputfile_1 = 1 ∧
      ∃ j, (RequestParameter.from_input "key"
        (.vseq [.afile inputfile_1, .afile inputfile_2])).value = some j ∧
        j.containsStr (attachUri "a1") = true) :=
  ⟨rfl, by decide,
    C1_upload_attachment_invariant "key" (.vseq [.afile inputfile_1, .afile inputfile_2])
      inputfile_1 "a1" rfl (by decide)⟩

/-- C2: for a composite media object carrying one upload-mode primary file and
one upload-mode thumbnail (both with synthetic references, which are distinct
by uuid-uniqueness), encoding produces `multipart_data` with exactly two
entries, the JSON value's `media` and `thumb` fields equal the two files'
respective synthetic references, and both files are appended to the attachment
list in `media`-then-`thumb` order. -/
theorem C2_media_with_thumb_two_attachments (key : String) (m : InputMedia)
    (f1 f2 : InputFile) (n1 n2 : String) (hm : m.media = .inl f1)
    (h1 : f1.attach_name = some n1) (ht : m.thumb = some (.inl f2))
    (h2 : f2.attach_name = some n2) (hnn : n1 ≠ n2) :
    (RequestParameter.from_input key (.atom (.amedia m))).input_files = some [f1, f2] ∧
    (RequestParameter.from_input key (.atom (.amedia m))).multipart_data
      = some [(n1, f1.field_tuple), (n2, f2.field_tuple)] ∧
    ((RequestParameter.from_input key (.atom (.amedia m))).multipart_data.getD []).length = 2 ∧
    ((RequestParameter.from_input key (.atom (.amedia m))).multipart_data.getD []).map
        Prod.fst = [n1, n2] ∧
    (((RequestParameter.from_input key (.atom (.amedia m))).multipart_data.getD []).map
        Prod.fst).Nodup ∧
    ∃ fields, (RequestParameter.from_input key (.atom (.amedia m))).value
        = some (.obj fields) ∧
      getKey fields "media" = some (.str (attachUri n1)) ∧
      getKey fields "thumb" = some (.str (attachUri n2)) := by
  have hv : RequestParameter.from_input key (.atom (.amedia m))
      = ⟨key, some (.obj (("type", JsonValue.str m.media_type)
            :: ([("media", JsonValue.str (attachUri n1))]
              ++ [("thumb", JsonValue.str (attachUri n2))] ++ m.extra))),
          some [f1, f2]⟩ := by
    rw [from_input_atom_eq]
    simp [encodeAtom, encodeMedia, hm, ht, encodeFileField, h1, h2]
  refine ⟨by rw [hv], ?_, ?_, ?_, ?_, ?_⟩
  · rw [hv]
    simp [RequestParameter.multipart_data, h1, h2]
  · rw [hv]
    simp [RequestParameter.multipart_data]
  · rw [hv]
    simp [RequestParameter.multipart_data, h1, h2]
  · rw [hv]
    simp [RequestParameter.multipart_data, h1, h2, hnn]
  · refine ⟨_, by rw [hv], ?_, ?_⟩ <;> simp [getKey]

/-- Witness for C2 on the shape of test lines 119-135: a video upload with an
upload-mode thumbnail. -/
theorem C2_media_with_thumb_two_attachments_witness :
    (InputMedia.mk "video" (.inl inputfile_1) (some (.inl inputthumb) ) []).media
        = .inl inputfile_1 ∧
    inputfile_1.attach_name = some "a1" ∧
    inputthumb.attach_name = some "a2" ∧
    "a1" ≠ "a2" ∧
    ((RequestParameter.from_input "key"
        (.atom (.amedia ⟨"video", .inl inputfile_1, some (.inl inputthumb), []⟩))).input_files
      = some [inputfile_1, inputthumb] ∧
      (RequestParameter.from_input "key"
        (.atom (.amedia ⟨"video", .inl inputfile_1, some (.inl inputthumb), []⟩))).multipart_data
      = some [("a1", inputfile_1.field_tuple), ("a2", inputthumb.field_tuple)] ∧
      ((RequestParameter.from_input "key"
        (.atom (.amedia ⟨"video", .inl inputfile_1, some (.inl inputthumb), []⟩))).multipart_data.getD []).length = 2 ∧
      ((RequestParameter.from_input "key"
        (.atom (.amedia ⟨"video", .inl inputfile_1, some (.inl inputthumb), []⟩))).multipart_data.getD []).map
          Prod.fst = ["a1", "a2"] ∧
      (((RequestParameter.from_input "key"
        (.atom (.amedia ⟨"video", .inl inputfile_1, some (.inl inputthumb), []⟩))).multipart_data.getD []).map
          Prod.fst).Nodup ∧
      ∃ fields, (RequestParameter.from_input "key"
          (.atom (.amedia ⟨"video", .inl inputfile_1, some (.inl inputthumb), []⟩))).value
          = some (.obj fields) ∧
        getKey fields "media" = some (.str (attachUri "a1")) ∧
        getKey fields "thumb" = some (.str (attachUri "a2"))) :=
  ⟨rfl, rfl, rfl, by decide,
    C2_media_with_thumb_two_attachments "key"
      ⟨"video", .inl inputfile_1, some (.inl inputthumb), []⟩
      inputfile_1 inputthumb "a1" "a2" rfl rfl rfl rfl (by decide)⟩

theorem getD_if_isEmpty {α : Type} (L : List α) :
    (if L.isEmpty then (none : Option (List α)) else some L).getD [] = L := by
  by_cases h : L.isEmpty
  · rw [if_pos h, List.isEmpty_iff.mp h]
    rfl
  · rw [if_neg h]
    rfl

theorem from_input_atom_files (key : String) (a : Atom) :
    (RequestParameter.from_input key (.atom a)).input_files.getD []
      = (encodeAtom a).2 := by
  rw [from_input_atom_eq]
  exact getD_if_isEmpty _

theorem from_input_seq_files (key : String) (xs : List Atom) :
    (RequestParameter.from_input key (.vseq xs)).input_files.getD []
      = ((xs.map encodeAtom).map Prod.snd).flatten := by
  rw [from_input_seq_eq]
  exact getD_if_isEmpty _

/-- C3 counterexample: the sequence holding the single plain-upload file
`inputfile_2` (no synthetic reference, as in test lines 103 and 113-115)
encodes to an EMPTY JSON array — the element's `None` value is skipped — so
the output sequence does not have the same length as the input sequence. -/
theorem C3_same_length_counterexample :
    (RequestParameter.from_input "key" (.vseq [.afile inputfile_2])).value
      = some (.arr []) ∧
    [Atom.afile inputfile_2].length = 1 := ⟨rfl, rfl⟩

/-- C3 as amended: each element of a sequence is encoded by the same
classification rules, in order, except that elements whose encoded value is
Python `None` (upload-mode files without a synthetic reference, and `None`
itself) are omitted from the JSON array, so the array may be shorter than the
input; the discovered attachments are concatenated in element order,
preserving first-occurrence order and without de-duplication; and the spec's
example `[fileA(upload), mediaB(upload+refthumb), "plain"]` yields the
attachment list `[fileA, mediaB.primary]` and a 3-element JSON array. -/
theorem C3_sequence_encoding_amended :
    (∀ (key : String) (xs : List Atom),
      (RequestParameter.from_input key (.vseq xs)).value
        = some (.arr ((xs.map
            (fun a => (RequestParameter.from_input key (.atom a)).value)).reduceOption))) ∧
    (∀ (key : String) (xs : List Atom),
      (RequestParameter.from_input key (.vseq xs)).input_files.getD []
        = (xs.map
            (fun a => (RequestParameter.from_input key (.atom a)).input_files.getD [])).flatten) ∧
    (RequestParameter.from_input "key"
        (.vseq [.afile inputfile_1,
                .amedia ⟨"video", .inl mediaB_file, some (.inr "thumb_file_id"), []⟩,
                .ajson (.str "plain")])
      = ⟨"key",
          some (.arr [.str "attach://a1",
            .obj [("type", .str "video"), ("media", .str "attach://b1"),
                  ("thumb", .str "thumb_file_id")],
            .str "plain"]),
          some [inputfile_1, mediaB_file]⟩) := by
  refine ⟨?_, ?_, rfl⟩
  · intro key xs
    rw [from_input_seq_eq]
    simp only [from_input_atom_eq, List.map_map]
    rfl
  · intro key xs
    rw [from_input_seq_files]
    simp only [from_input_atom_files, List.map_map]
    rfl

/-- C8: for each composite media constructor fed an existing remote object,
every inheritable metadata field equals the explicit constructor argument when
one is given and otherwise the value copied from the remote object — uniformly
for width/height/duration of animation and video and for
duration/performer/title of audio (the `if None` vs `if not None` spellings at
lines 174-177, 316-320 and 403-406 of `src/telegram/files/inputmedia.py` are
semantically identical). -/
theorem C8_metadata_precedence_uniform :
    (∀ (a : Animation) (thumb : Option FileInput) (caption : Option String)
        (width height duration : Option Int) (filename : Option String)
        (fm ft : String),
      (InputMediaAnimation.make (.inl a) thumb caption width height duration
          filename fm ft).width = some (width.getD a.width) ∧
      (InputMediaAnimation.make (.inl a) thumb caption width height duration
          filename fm ft).height = some (height.getD a.height) ∧
      (InputMediaAnimation.make (.inl a) thumb caption width height duration
          filename fm ft).duration = some (duration.getD a.duration)) ∧
    (∀ (v : Video) (caption : Option String) (width height duration : Option Int)
        (ss : Option Bool) (thumb : Option FileInput) (filename : Option String)
        (fm ft : String),
      (InputMediaVideo.make (.inl v) caption width height duration ss thumb
          filename fm ft).width = some (width.getD v.width) ∧
      (InputMediaVideo.make (.inl v) caption width height duration ss thumb
          filename fm ft).height = some (height.getD v.height) ∧
      (InputMediaVideo.make (.inl v) caption width height duration ss thumb
          filename fm ft).duration = some (duration.getD v.duration)) ∧
    (∀ (au : Audio) (thumb : Option FileInput) (caption : Option String)
        (duration : Option Int) (performer title : Option String)
        (filename : Option String) (fm ft : String),
      (InputMediaAudio.make (.inl au) thumb caption duration performer title
          filename fm ft).duration = some (duration.getD au.duration) ∧
      (InputMediaAudio.make (.inl au) thumb caption duration performer title
          filename fm ft).performer = (performer <|> au.performer) ∧
      (InputMediaAudio.make (.inl au) thumb caption duration performer title
          filename fm ft).title = (title <|> au.title)) := by
  refine ⟨?_, ?_, ?_⟩
  · intro a thumb caption width height duration filename fm ft
    refine ⟨?_, ?_, ?_⟩ <;>
      first
        | (rcases width with _ | w <;> rfl)
        | (rcases height with _ | h <;> rfl)
        | (rcases duration with _ | d <;> rfl)
  · intro v caption width height duration ss thumb filename fm ft
    refine ⟨?_, ?_, ?_⟩ <;>
      first
        | (rcases width with _ | w <;> rfl)
        | (rcases height with _ | h <;> rfl)
        | (rcases duration with _ | d <;> rfl)
  · intro au thumb caption duration performer title filename fm ft
    refine ⟨?_, ?_, ?_⟩ <;>
      first
        | (rcases duration with _ | d <;> rfl)
        | (rcases performer with _ | p <;> rfl)
        | (rcases title with _ | t <;> rfl)

/-- C9: `InputMediaVideo.supports_streaming` is never `None` after
construction — `None` (or an omitted argument) is normalized to `False`,
any given boolean is kept (line 327 of `src/telegram/files/inputmedia.py`). -/
theorem C9_supports_streaming_normalized :
    ∀ (media : Video ⊕ FileInput) (caption : Option String)
      (width height duration : Option Int) (ss : Option Bool)
      (thumb : Option FileInput) (filename : Option String) (fm ft : String),
      (InputMediaVideo.make media caption width height duration ss thumb
          filename fm ft).supports_streaming = some (ss.getD false) ∧
      (InputMediaVideo.make media caption width height duration ss thumb
          filename fm ft).supports_streaming ≠ none := by
  intro media caption width height duration ss thumb filename fm ft
  rcases media with v | fi <;> rcases ss with _ | b <;>
    exact ⟨rfl, fun hcon => Option.noConfusion hcon⟩

/-- C5 (code-bug evaluation): constructing `InputMediaAudio` from an existing
`Audio` stores the audio's TITLE in the `media` slot (line 407 of
`src/telegram/files/inputmedia.py` reads `media = media.title`), not its
`file_id` as the docstring and the spec require — while the animation and
video constructors do store the remote `file_id`. -/
theorem C5_audio_media_gets_title_not_file_id :
    (InputMediaAudio.make (.inl audio_song) none none none none none none
        "fm" "ft").media = some (.inr "song_title") ∧
    ¬ (InputMediaAudio.make (.inl audio_song) none none none none none none
        "fm" "ft").media = some (.inr audio_song.file_id) ∧
    (∀ (a : Animation) (fm ft : String),
      (InputMediaAnimation.make (.inl a) none none none none none none
          fm ft).media = some (.inr a.file_id)) ∧
    (∀ (v : Video) (fm ft : String),
      (InputMediaVideo.make (.inl v) none none none none none none none
          fm ft).media = some (.inr v.file_id)) :=
  ⟨rfl, by decide, fun a fm ft => rfl, fun v fm ft => rfl⟩

theorem decodeCells_round (row : List String) :
    decodeCells (row.map JsonValue.str) = some row := by
  induction row with
  | nil => rfl
  | cons s rest ih => simp [decodeCells, ih, JsonValue.asStr?]

theorem decodeRows_round (rows : List (List String)) :
    decodeRows (rows.map (fun row => JsonValue.arr (row.map JsonValue.str)))
      = some rows := by
  induction rows with
  | nil => rfl
  | cons r rest ih => simp [decodeRows, decodeRow, decodeCells_round, ih]

theorem IKM_round_trip (rm : InlineKeyboardMarkup) :
    InlineKeyboardMarkup.de_json (some rm.to_dict) = some rm := by
  rcases rm with ⟨rows⟩
  simp [InlineKeyboardMarkup.de_json, InlineKeyboardMarkup.to_dict, getKey,
    decodeRows_round]

theorem IMC_round_trip (c : InputMessageContent) :
    InputMessageContent.de_json (some c.to_dict) = some c := by
  rcases c with ⟨t⟩
  simp [InputMessageContent.de_json, InputMessageContent.to_dict, getKey]

/-- C4: for the concrete data classes of the repository, `de_json` applied to
`to_dict` reconstructs an instance structurally equal to the original — hence
in particular equal under identity-field (`id`) equality — whenever the
optional fields are populated with representative truthy values. -/
theorem C4_de_json_to_dict_round_trip :
    (∀ (i vfi ti c : String) (rm : InlineKeyboardMarkup)
        (imc : InputMessageContent), c ≠ "" →
      InlineQueryResultCachedVoice.de_json
          (InlineQueryResultCachedVoice.make i vfi ti (some c) (some rm)
            (some imc)).to_dict
        = some (InlineQueryResultCachedVoice.make i vfi ti (some c) (some rm)
            (some imc))) ∧
    (∀ (i ti dfi d c : String) (rm : InlineKeyboardMarkup)
        (imc : InputMessageContent), d ≠ "" → c ≠ "" →
      InlineQueryResultCachedDocument.de_json
          (InlineQueryResultCachedDocument.make i ti dfi (some d) (some c)
            (some rm) (some imc)).to_dict
        = some (InlineQueryResultCachedDocument.make i ti dfi (some d) (some c)
            (some rm) (some imc))) := by
  constructor
  · intro i vfi ti c rm imc hc
    have hcap : truthyStr (some c) = some c := by simp [truthyStr, hc]
    simp [InlineQueryResultCachedVoice.make, InlineQueryResultCachedVoice.to_dict,
      InlineQueryResultCachedVoice.de_json, hcap, optStrField, optJsonField,
      getKey, IKM_round_trip, IMC_round_trip, JsonValue.asStr?]
  · intro i ti dfi d c rm imc hd hc
    have hcap : truthyStr (some c) = some c := by simp [truthyStr, hc]
    have hdesc : truthyStr (some d) = some d := by simp [truthyStr, hd]
    simp [InlineQueryResultCachedDocument.make,
      InlineQueryResultCachedDocument.to_dict,
      InlineQueryResultCachedDocument.de_json, hcap, hdesc, optStrField,
      optJsonField, getKey, IKM_round_trip, IMC_round_trip, JsonValue.asStr?]

/-- Witness for C4 at concrete populated instances. -/
theorem C4_de_json_to_dict_round_trip_witness :
    ("cap" ≠ "" ∧
      InlineQueryResultCachedVoice.de_json
          (InlineQueryResultCachedVoice.make "I" "V" "T" (some "cap")
            (some ⟨[["b"]]⟩) (some ⟨"txt"⟩)).to_dict
        = some (InlineQueryResultCachedVoice.make "I" "V" "T" (some "cap")
            (some ⟨[["b"]]⟩) (some ⟨"txt"⟩))) ∧
    ("desc" ≠ "" ∧ "cap" ≠ "" ∧
      InlineQueryResultCachedDocument.de_json
          (InlineQueryResultCachedDocument.make "I" "T" "D" (some "desc")
            (some "cap") (some ⟨[["b"]]⟩) (some ⟨"txt"⟩)).to_dict
        = some (InlineQueryResultCachedDocument.make "I" "T" "D" (some "desc")
            (some "cap") (some ⟨[["b"]]⟩) (some ⟨"txt"⟩))) :=
  ⟨⟨by decide, C4_de_json_to_dict_round_trip.1 "I" "V" "T" "cap" ⟨[["b"]]⟩ ⟨"txt"⟩
      (by decide)⟩,
    ⟨by decide, by decide, C4_de_json_to_dict_round_trip.2 "I" "T" "D" "desc" "cap"
      ⟨[["b"]]⟩ ⟨"txt"⟩ (by decide) (by decide)⟩⟩

/-- C6 as amended: deserialization never fails because of unknown keys, but
the two generations of data classes treat them differently — the modern
`_BaseThumbedMedium.de_json` routes every unknown key into the retrievable
`api_kwargs` extensibility bag, while the legacy inline-result classes absorb
unknown keys into the constructor's ignored `**kwargs`, producing exactly the
object that would result without the key (dropped silently, not
retrievable). -/
theorem C6_unknown_keys_amended (k : String) (v : JsonValue)
    (fid fuid i ti dfi : String)
    (hk : k ∉ ["file_id", "file_unique_id", "file_size", "thumbnail", "thumb"])
    (hd : k ∉ ["id", "title", "document_file_id", "description", "caption",
        "reply_markup", "input_message_content"]) :
    (BaseThumbedMedium.de_json
        (some [("file_id", .str fid), ("file_unique_id", .str fuid), (k, v)])
      = some ⟨fid, fuid, none, none, [(k, v)]⟩) ∧
    ((k, v) ∈ (⟨fid, fuid, none, none, [(k, v)]⟩ : BaseThumbedMedium).api_kwargs) ∧
    (InlineQueryResultCachedDocument.de_json
        [("id", .str i), ("title", .str ti), ("document_file_id", .str dfi), (k, v)]
      = some (InlineQueryResultCachedDocument.make i ti dfi none none none none)) ∧
    (InlineQueryResultCachedDocument.de_json
        [("id", .str i), ("title", .str ti), ("document_file_id", .str dfi)]
      = some (InlineQueryResultCachedDocument.make i ti dfi none none none none)) := by
  simp only [List.mem_cons, List.mem_singleton, not_or] at hk hd
  obtain ⟨hk1, hk2, hk3, hk4, hk5⟩ := hk
  obtain ⟨hd1, hd2, hd3, hd4, hd5, hd6, hd7⟩ := hd
  refine ⟨?_, by simp, ?_, ?_⟩
  · simp [BaseThumbedMedium.de_json, getKey, popKey, PhotoSize.de_json,
      thumbedKnownKeys, JsonValue.asStr?, hk1, hk2, hk3, hk4, hk5]
  · simp [InlineQueryResultCachedDocument.de_json,
      InlineQueryResultCachedDocument.make, InlineKeyboardMarkup.de_json,
      InputMessageContent.de_json, truthyStr, getKey, JsonValue.asStr?,
      hd1, hd2, hd3, hd4, hd5, hd6, hd7]
  · simp [InlineQueryResultCachedDocument.de_json,
      InlineQueryResultCachedDocument.make, InlineKeyboardMarkup.de_json,
      InputMessageContent.de_json, truthyStr, getKey, JsonValue.asStr?]

/-- Witness for C6 at the concrete unknown key `"unknown_field"`. -/
theorem C6_unknown_keys_amended_witness :
    ("unknown_field" ∉
        ["file_id", "file_unique_id", "file_size", "thumbnail", "thumb"] ∧
      "unknown_field" ∉
        ["id", "title", "document_file_id", "description", "caption",
          "reply_markup", "input_message_content"]) ∧
    ((BaseThumbedMedium.de_json
        (some [("file_id", .str "F"), ("file_unique_id", .str "U"),
          ("unknown_field", .int 42)])
      = some ⟨"F", "U", none, none, [("unknown_field", .int 42)]⟩) ∧
    (("unknown_field", JsonValue.int 42) ∈
      (⟨"F", "U", none, none, [("unknown_field", .int 42)]⟩ :
        BaseThumbedMedium).api_kwargs) ∧
    (InlineQueryResultCachedDocument.de_json
        [("id", .str "I"), ("title", .str "T"),
          ("document_file_id", .str "D"), ("unknown_field", .int 42)]
      = some (InlineQueryResultCachedDocument.make "I" "T" "D" none none none none)) ∧
    (InlineQueryResultCachedDocument.de_json
        [("id", .str "I"), ("title", .str "T"), ("document_file_id", .str "D")]
      = some (InlineQueryResultCachedDocument.make "I" "T" "D" none none none none))) :=
  ⟨⟨by decide, by decide⟩,
    C6_unknown_keys_amended "unknown_field" (.int 42) "F" "U" "I" "T" "D"
      (by decide) (by decide)⟩

/-- C6 counterexample: for the legacy class `InlineQueryResultCachedDocument`
(one of the two classes the claim is sourced from), deserializing a mapping
that carries the unknown key `"unknown_field"` succeeds but yields exactly the
same object as deserializing the mapping without that key — the unknown key is
dropped silently and is not retrievable from any bag, contradicting the claim
as stated. -/
theorem C6_retrievability_counterexample :
    InlineQueryResultCachedDocument.de_json
        [("id", .str "I"), ("title", .str "T"), ("document_file_id", .str "D"),
          ("unknown_field", .int 42)]
      = InlineQueryResultCachedDocument.de_json
        [("id", .str "I"), ("title", .str "T"), ("document_file_id", .str "D")] ∧
    (InlineQueryResultCachedDocument.de_json
        [("id", .str "I"), ("title", .str "T"), ("document_file_id", .str "D"),
          ("unknown_field", .int 42)]).isSome = true := ⟨rfl, rfl⟩

/-- C10: passing a falsy value (the empty string) for `caption` or
`description` of the legacy inline-result constructors leaves the attribute
unset exactly as if the argument had been omitted — the resulting objects are
equal, the attributes are `none`, and the serialized mappings carry no such
keys. -/
theorem C10_falsy_optionals_unset :
    (∀ (i ti dfi : String) (rm : Option InlineKeyboardMarkup)
        (imc : Option InputMessageContent),
      InlineQueryResultCachedDocument.make i ti dfi (some "") (some "") rm imc
        = InlineQueryResultCachedDocument.make i ti dfi none none rm imc ∧
      (InlineQueryResultCachedDocument.make i ti dfi (some "") (some "")
          rm imc).description = none ∧
      (InlineQueryResultCachedDocument.make i ti dfi (some "") (some "")
          rm imc).caption = none ∧
      getKey (InlineQueryResultCachedDocument.make i ti dfi (some "") (some "")
          rm imc).to_dict "description" = none ∧
      getKey (InlineQueryResultCachedDocument.make i ti dfi (some "") (some "")
          rm imc).to_dict "caption" = none) ∧
    (∀ (i vfi ti : String) (rm : Option InlineKeyboardMarkup)
        (imc : Option InputMessageContent),
      InlineQueryResultCachedVoice.make i vfi ti (some "") rm imc
        = InlineQueryResultCachedVoice.make i vfi ti none rm imc ∧
      (InlineQueryResultCachedVoice.make i vfi ti (some "") rm imc).caption
        = none ∧
      getKey (InlineQueryResultCachedVoice.make i vfi ti (some "")
          rm imc).to_dict "caption" = none) := by
  constructor
  · intro i ti dfi rm imc
    refine ⟨rfl, rfl, rfl, ?_, ?_⟩ <;>
      rcases rm with _ | rm <;> rcases imc with _ | imc <;>
        simp [InlineQueryResultCachedDocument.make,
          InlineQueryResultCachedDocument.to_dict, truthyStr, optStrField,
          optJsonField, getKey]
  · intro i vfi ti rm imc
    refine ⟨rfl, rfl, ?_⟩
    rcases rm with _ | rm <;> rcases imc with _ | imc <;>
      simp [InlineQueryResultCachedVoice.make,
        InlineQueryResultCachedVoice.to_dict, truthyStr, optStrField,
        optJsonField, getKey]

/-- C7: a timestamp encodes to the integer number of epoch seconds (UTC) with
the sub-second part truncated — the wire value never depends on the
microsecond field — and the literal regression value holds:
2019-11-11T00:26:16.1 (UTC) encodes to exactly 1573431976. -/
theorem C7_timestamp_encoding :
    (∀ (key : String) (dt : DateTime),
      (RequestParameter.from_input key (.atom (.adt dt))).value
        = some (.int (to_timestamp dt)) ∧
      (RequestParameter.from_input key (.atom (.adt dt))).input_files = none) ∧
    (∀ (dt : DateTime) (micro : Nat),
      to_timestamp ⟨dt.year, dt.month, dt.day, dt.hour, dt.minute, dt.second, micro⟩
        = to_timestamp dt) ∧
    to_timestamp ⟨2019, 11, 11, 0, 26, 16, 100000⟩ = 1573431976 ∧
    (RequestParameter.from_input "key"
        (.atom (.adt ⟨2019, 11, 11, 0, 26, 16, 100000⟩))).value
      = some (.int 1573431976) := by
  refine ⟨fun key dt => ⟨rfl, rfl⟩, fun dt micro => rfl, rfl, rfl⟩
